import Mathlib

/-!
Verification of the MyImpression display application.

The mode selector is embedded from `src/main.py` (`MyImpressionApp`):
the mutable fields `current_mode`, `switch` and `last_button_press`
become an explicit `AppState`, and the methods `_on_button_press`,
`switch_mode`, `check_and_switch_mode` and `run_current_mode` become
state-passing functions.  Logging, LED acknowledgment and the error
display are modelled as observable outputs of those functions.

The canvas compositor is embedded from `src/modules/display_utils.py`
(`resize_with_aspect_ratio` and its helpers): Python float division is
modelled as exact rational division, Python `int()` as truncation toward
zero, Python `//` as `Int.fdiv` (floor division), and `Image.paste` with
a possibly negative offset as the coverage predicate `covers` (PIL clips
the overhanging portion).  An image is represented by its pixel
dimensions; the composited result by a `Canvas` recording the output
dimensions, the paste offset and the pasted (scaled) dimensions.
-/

/-- The keys of the mode registry `self.modes` built in
`MyImpressionApp.__init__` (src/main.py lines 63-67). -/
def modes : List String := ["photo_cycle", "tumblr_rss", "news_feed"]

/-- The table `button_modes = ["photo_cycle", "tumblr_rss", "news_feed",
"photo_cycle"]` duplicated in `_on_button_press` (line 158) and
`check_and_switch_mode` (line 217) of src/main.py. -/
def button_modes : List String := ["photo_cycle", "tumblr_rss", "news_feed", "photo_cycle"]

/-- The dictionary `button_map = {"A": 0, "B": 1, "C": 2, "D": 3}` of
`_on_button_press`; `.get` on a missing key yields `None`. -/
def button_map : String → Option Nat
  | "A" => some 0
  | "B" => some 1
  | "C" => some 2
  | "D" => some 3
  | _ => none

/-- The mutable selector fields of `MyImpressionApp`: `current_mode`
(initially `None`), `switch` (pending button number, initially `None`)
and `last_button_press` (a timestamp, modelled as an exact rational). -/
structure AppState where
  currentMode : Option String
  switch : Option Nat
  lastButtonPress : ℚ
deriving DecidableEq

/-- `MyImpressionApp._on_button_press` (src/main.py lines 142-171): drop
the press if it is within 0.5 s of the previous one; otherwise record the
timestamp, map the button label to a number, and set `self.switch` only
when the button's target mode differs from the current mode. -/
def on_button_press (s : AppState) (button : String) (now : ℚ) : AppState :=
  if now - s.lastButtonPress < 1/2 then s
  else
    let s1 : AppState := { s with lastButtonPress := now }
    match button_map button with
    | some button_num =>
      let target_mode := button_modes.getD button_num ""
      if s1.currentMode ≠ some target_mode then { s1 with switch := some button_num }
      else s1
    | none => s1

/-- Result of `switch_mode` / `check_and_switch_mode`: the new state,
whether `_indicate_mode_change` (the LED transition acknowledgment) was
triggered, and whether `logger.error` was called. -/
structure SwitchResult where
  state : AppState
  indicated : Bool
  errorLogged : Bool
deriving DecidableEq

/-- `MyImpressionApp.switch_mode` (src/main.py lines 173-189): an unknown
mode name is rejected with a logged error; switching to the current mode
returns early without acknowledgment; otherwise `current_mode` is updated
and `_indicate_mode_change` runs. -/
def switch_mode (s : AppState) (mode_name : String) : SwitchResult :=
  if mode_name ∉ modes then { state := s, indicated := false, errorLogged := true }
  else if s.currentMode = some mode_name then
    { state := s, indicated := false, errorLogged := false }
  else
    { state := { s with currentMode := some mode_name }, indicated := true, errorLogged := false }

/-- `MyImpressionApp.check_and_switch_mode` (src/main.py lines 213-226):
if `self.switch` is set, call `switch_mode` on the mapped target mode,
clear `self.switch`, and return `True`; otherwise return `False`. -/
def check_and_switch_mode (s : AppState) : SwitchResult × Bool :=
  match s.switch with
  | some b =>
    let target_mode := button_modes.getD b ""
    let r := switch_mode s target_mode
    ({ r with state := { r.state with switch := none } }, true)
  | none => ({ state := s, indicated := false, errorLogged := false }, false)

/-- Outcome of one call to a mode's `update_display()`: it either returns
or raises an exception carrying a message. -/
inductive UpdateOutcome where
  | ok
  | raises (msg : String)
deriving DecidableEq

/-- `MyImpressionApp.run_current_mode` (src/main.py lines 228-237): if
`current_mode` is truthy and a registry key, run its `update_display`;
an exception is caught and routed to `display_utils.show_error`.  The
second component counts the `show_error` invocations; returning a value
at all models the absence of a propagated exception. -/
def run_current_mode (s : AppState) (update : String → UpdateOutcome) : AppState × Nat :=
  match s.currentMode with
  | some m =>
    if m ≠ "" ∧ m ∈ modes then
      match update m with
      | .ok => (s, 0)
      | .raises _ => (s, 1)
    else (s, 0)
  | none => (s, 0)

/-- Python `int()` applied to a rational: truncation toward zero. -/
def py_trunc (q : ℚ) : ℤ := if q < 0 then Int.ceil q else Int.floor q

/-- The result of compositing a source image onto a target canvas:
output dimensions, background color, paste offset (can be negative; PIL
clips) and the dimensions of the pasted, scaled source. -/
structure Canvas where
  width : Nat
  height : Nat
  bg : Nat × Nat × Nat
  pasteX : ℤ
  pasteY : ℤ
  pastedW : Nat
  pastedH : Nat
deriving DecidableEq

/-- Pixel `(px, py)` of the canvas is covered by the pasted image (so it
does not show the background color). -/
def covers (c : Canvas) (px py : Nat) : Prop :=
  c.pasteX ≤ (px : ℤ) ∧ (px : ℤ) < c.pasteX + c.pastedW ∧
  c.pasteY ≤ (py : ℤ) ∧ (py : ℤ) < c.pasteY + c.pastedH

instance (c : Canvas) (px py : Nat) : Decidable (covers c px py) := by
  unfold covers; infer_instance

/-- `DisplayUtils._resize_to_fit_screen` (src/modules/display_utils.py
lines 350-391): `scale = min(target_w/img_w, target_h/img_h)`, scaled
dimensions by `int(dim * scale)`, canvas of exactly the target size, and
centering offsets `(target - new) // 2`. -/
def resize_to_fit_screen (sw sh tw th : Nat) (bg : Nat × Nat × Nat) : Canvas :=
  let scale : ℚ := min ((tw : ℚ) / sw) ((th : ℚ) / sh)
  let new_width := (py_trunc ((sw : ℚ) * scale)).toNat
  let new_height := (py_trunc ((sh : ℚ) * scale)).toNat
  { width := tw, height := th, bg := bg,
    pasteX := ((tw : ℤ) - new_width).fdiv 2,
    pasteY := ((th : ℤ) - new_height).fdiv 2,
    pastedW := new_width, pastedH := new_height }

/-- `DisplayUtils._resize_to_fill_screen` (src/modules/display_utils.py
lines 306-348): identical to the fit variant except
`scale = max(target_w/img_w, target_h/img_h)`; the centering offsets may
be negative and the paste then clips. -/
def resize_to_fill_screen (sw sh tw th : Nat) (bg : Nat × Nat × Nat) : Canvas :=
  let scale : ℚ := max ((tw : ℚ) / sw) ((th : ℚ) / sh)
  let new_width := (py_trunc ((sw : ℚ) * scale)).toNat
  let new_height := (py_trunc ((sh : ℚ) * scale)).toNat
  { width := tw, height := th, bg := bg,
    pasteX := ((tw : ℤ) - new_width).fdiv 2,
    pasteY := ((th : ℤ) - new_height).fdiv 2,
    pastedW := new_width, pastedH := new_height }

/-- `DisplayUtils._rotate_for_best_fit` (src/modules/display_utils.py
lines 279-304): rotate 90 degrees with an expanded bounding box (the
dimensions swap) exactly when the rotated fit ratio strictly exceeds the
current fit ratio.  Returns the resulting source dimensions. -/
def rotate_for_best_fit (sw sh tw th : Nat) : Nat × Nat :=
  let current_fit_ratio : ℚ := min ((tw : ℚ) / sw) ((th : ℚ) / sh)
  let rotated_fit_ratio : ℚ := min ((tw : ℚ) / sh) ((th : ℚ) / sw)
  if rotated_fit_ratio > current_fit_ratio then (sh, sw) else (sw, sh)

/-- `DisplayUtils.resize_with_aspect_ratio` (src/modules/display_utils.py
lines 246-277): optionally auto-rotate, then dispatch on `fill_screen`. -/
def resize_with_aspect_ratio (sw sh tw th : Nat) (fill_screen auto_rotate : Bool)
    (bg : Nat × Nat × Nat) : Canvas :=
  let dims := if auto_rotate then rotate_for_best_fit sw sh tw th else (sw, sh)
  if fill_screen then resize_to_fill_screen dims.1 dims.2 tw th bg
  else resize_to_fit_screen dims.1 dims.2 tw th bg

/-- `int()` of a nonnegative rational is its floor. -/
lemma py_trunc_of_nonneg {q : ℚ} (h : 0 ≤ q) : py_trunc q = ⌊q⌋ := by
  unfold py_trunc
  rw [if_neg (not_lt.mpr h)]

/-- If the scale does not exceed `target / src`, then the truncated
scaled dimension `int(src * scale)` does not exceed the target. -/
lemma scaled_dim_le (src target : Nat) (scale : ℚ) (hsrc : 0 < src)
    (h0 : 0 ≤ scale) (hle : scale ≤ (target : ℚ) / src) :
    (py_trunc ((src : ℚ) * scale)).toNat ≤ target := by
  have hcast : (0 : ℚ) < (src : ℚ) := by exact_mod_cast hsrc
  have hmul : (src : ℚ) * scale ≤ target := by
    calc (src : ℚ) * scale ≤ (src : ℚ) * ((target : ℚ) / src) :=
          mul_le_mul_of_nonneg_left hle (le_of_lt hcast)
      _ = target := mul_div_cancel₀ _ (ne_of_gt hcast)
  rw [py_trunc_of_nonneg (mul_nonneg (le_of_lt hcast) h0), Int.toNat_le]
  calc ⌊(src : ℚ) * scale⌋ ≤ ⌊(target : ℚ)⌋ := Int.floor_le_floor hmul
    _ = target := Int.floor_natCast target

/-- Floor division of a nonnegative integer by 2 is nonnegative. -/
lemma fdiv_two_nonneg {a : ℤ} (h : 0 ≤ a) : 0 ≤ a.fdiv 2 :=
  Int.fdiv_nonneg h (by norm_num)

/-- Floor division of a nonnegative integer by 2 does not exceed it. -/
lemma fdiv_two_le_self {a : ℤ} (h : 0 ≤ a) : a.fdiv 2 ≤ a := by
  rw [Int.fdiv_eq_ediv _ (by norm_num)]
  exact Int.ediv_le_self 2 h

/-- C1 counterexample: with current mode "photo_cycle" and no pending
switch, a press of button A arriving a full second after the previous
press (so past the 500 ms debounce window) does not overwrite
`self.switch` with button A's value 0, because button A's target mode
equals the current mode — refuting "overwritten unconditionally". -/
theorem c1_counterexample :
    (on_button_press (AppState.mk (some "photo_cycle") none 0) "A" 1).switch = none := by
  norm_num [on_button_press, button_map, button_modes]

/-- C1 (amended): a press of a button with identifier in {A, B, C, D}
overwrites the pending-switch field with that button's value only when at
least 500 ms have elapsed since the last recorded press and the button's
target mode differs from the current mode; a press inside the debounce
window leaves the state entirely unchanged, and a press whose target mode
equals the current mode leaves the pending switch unchanged. -/
theorem c1_press_sets_switch_conditionally (s : AppState) (button : String) (n : Nat)
    (now : ℚ) (hmap : button_map button = some n) :
    (now - s.lastButtonPress < 1/2 → on_button_press s button now = s) ∧
    (¬ now - s.lastButtonPress < 1/2 →
      (s.currentMode ≠ some (button_modes.getD n "") →
        (on_button_press s button now).switch = some n) ∧
      (s.currentMode = some (button_modes.getD n "") →
        (on_button_press s button now).switch = s.switch)) := by
  refine ⟨fun hdeb => ?_, fun hdeb => ⟨fun hdiff => ?_, fun heq => ?_⟩⟩
  · unfold on_button_press
    rw [if_pos hdeb]
  · unfold on_button_press
    rw [if_neg hdeb, hmap]
    dsimp only
    rw [if_pos hdiff]
  · unfold on_button_press
    rw [if_neg hdeb, hmap]
    dsimp only
    rw [if_neg (not_not_intro heq)]

/-- C1 witness: pressing B (value 1) one second after the last press,
with current mode "photo_cycle" and a stale pending value 2, sets the
pending switch to 1. -/
theorem c1_press_sets_switch_conditionally_witness :
    (on_button_press (AppState.mk (some "photo_cycle") (some 2) 0) "B" 1).switch = some 1 :=
  ((c1_press_sets_switch_conditionally (AppState.mk (some "photo_cycle") (some 2) 0)
    "B" 1 1 rfl).2 (by show ¬ (1 : ℚ) - 0 < 1/2; norm_num)).1 (by decide)

/-- C2: when the current mode is registered and its `update_display`
raises, `run_current_mode` catches the exception, invokes
`display_utils.show_error` exactly once, and returns with the selector
state (current mode and pending switch) unchanged. -/
theorem c2_update_exception_caught (s : AppState) (update : String → UpdateOutcome)
    (m msg : String) (hcur : s.currentMode = some m) (hmem : m ∈ modes)
    (hraises : update m = .raises msg) :
    run_current_mode s update = (s, 1) := by
  have hne : m ≠ "" := by
    simp only [modes, List.mem_cons, List.not_mem_nil, or_false] at hmem
    rcases hmem with rfl | rfl | rfl <;> decide
  simp [run_current_mode, hcur, hne, hmem, hraises]

/-- C2 witness: a photo-cycle update that raises "network timeout" leads
to exactly one error display and an unchanged state. -/
theorem c2_update_exception_caught_witness :
    run_current_mode (AppState.mk (some "photo_cycle") none 0)
      (fun _ => .raises "network timeout") = (AppState.mk (some "photo_cycle") none 0, 1) :=
  c2_update_exception_caught _ _ "photo_cycle" "network timeout" rfl (by decide) rfl

/-- C4: if the current mode is a registered A, and the pending switch
holds a button whose target mode is a registered B with A ≠ B, then one
call to `check_and_switch_mode` makes B current and clears the pending
switch. -/
theorem c4_pending_switch_applied (s : AppState) (A B : String) (b : Nat)
    (hAmem : A ∈ modes) (hBmem : B ∈ modes) (hne : A ≠ B)
    (hcur : s.currentMode = some A) (hpend : s.switch = some b)
    (htarget : button_modes.getD b "" = B) :
    (check_and_switch_mode s).1.state.currentMode = some B ∧
    (check_and_switch_mode s).1.state.switch = none := by
  unfold check_and_switch_mode
  rw [hpend]
  dsimp only
  rw [htarget]
  unfold switch_mode
  rw [if_neg (not_not_intro hBmem), hcur,
    if_neg (fun h => hne (Option.some_inj.mp h))]
  exact ⟨rfl, rfl⟩

/-- C4 witness: from current mode "photo_cycle" with button 1
("tumblr_rss") pending, one apply call switches to "tumblr_rss" and
clears the pending switch. -/
theorem c4_pending_switch_applied_witness :
    (check_and_switch_mode (AppState.mk (some "photo_cycle") (some 1) 0)).1.state.currentMode =
      some "tumblr_rss" ∧
    (check_and_switch_mode (AppState.mk (some "photo_cycle") (some 1) 0)).1.state.switch =
      none :=
  c4_pending_switch_applied _ "photo_cycle" "tumblr_rss" 1 (by decide) (by decide)
    (by decide) rfl rfl rfl

/-- C5: `switch_mode` on a name absent from the registry leaves the
state (in particular the current mode) unchanged, logs an error, does
not acknowledge a transition, and returns normally. -/
theorem c5_unknown_mode_rejected (s : AppState) (mode_name : String)
    (h : mode_name ∉ modes) :
    switch_mode s mode_name = { state := s, indicated := false, errorLogged := true } := by
  simp [switch_mode, h]

/-- C5 witness: switching to the unregistered name "weather" leaves the
state unchanged and logs an error. -/
theorem c5_unknown_mode_rejected_witness :
    switch_mode (AppState.mk (some "photo_cycle") none 0) "weather" =
      { state := AppState.mk (some "photo_cycle") none 0, indicated := false,
        errorLogged := true } :=
  c5_unknown_mode_rejected _ "weather" (by decide)

/-- C9: when the pending switch targets the mode that is already current
(and registered), one `check_and_switch_mode` call leaves the current
mode unchanged, clears the pending switch, and does not trigger the
`_indicate_mode_change` acknowledgment. -/
theorem c9_same_mode_repress_noop (s : AppState) (m : String) (b : Nat)
    (hmem : m ∈ modes) (hcur : s.currentMode = some m) (hpend : s.switch = some b)
    (htarget : button_modes.getD b "" = m) :
    (check_and_switch_mode s).1.state.currentMode = some m ∧
    (check_and_switch_mode s).1.state.switch = none ∧
    (check_and_switch_mode s).1.indicated = false := by
  unfold check_and_switch_mode
  rw [hpend]
  dsimp only
  rw [htarget]
  unfold switch_mode
  rw [if_neg (not_not_intro hmem), hcur, if_pos rfl]
  exact ⟨hcur, rfl, rfl⟩

/-- C9 witness: current mode "photo_cycle" with button 3 (also
"photo_cycle") pending; the apply call is a no-op that clears the
pending switch without acknowledgment. -/
theorem c9_same_mode_repress_noop_witness :
    (check_and_switch_mode (AppState.mk (some "photo_cycle") (some 3) 0)).1.state.currentMode =
      some "photo_cycle" ∧
    (check_and_switch_mode (AppState.mk (some "photo_cycle") (some 3) 0)).1.state.switch =
      none ∧
    (check_and_switch_mode (AppState.mk (some "photo_cycle") (some 3) 0)).1.indicated =
      false :=
  c9_same_mode_repress_noop _ "photo_cycle" 3 (by decide) rfl rfl rfl

/-- C10: when no mode is selected, or the current mode names no registry
key, `run_current_mode` performs no update and no error display and
returns with the state untouched. -/
theorem c10_no_valid_mode_noop (s : AppState) (update : String → UpdateOutcome)
    (h : s.currentMode = none ∨ ∃ m, s.currentMode = some m ∧ m ∉ modes) :
    run_current_mode s update = (s, 0) := by
  rcases h with h | ⟨m, hm, hmem⟩
  · simp [run_current_mode, h]
  · simp [run_current_mode, hm, hmem]

/-- C10 witness: with no mode selected, a tick changes nothing and shows
no error, even if every update would raise. -/
theorem c10_no_valid_mode_noop_witness :
    run_current_mode (AppState.mk none (some 1) 0) (fun _ => .raises "boom") =
      (AppState.mk none (some 1) 0, 0) :=
  c10_no_valid_mode_noop _ _ (Or.inl rfl)

/-- C3: for any source of dimensions at least 1x1, positive target
dimensions, either scaling policy, any auto-rotate flag and any
background color, the canvas produced by `resize_with_aspect_ratio` has
exactly the target pixel dimensions. -/
theorem c3_output_has_target_dims (sw sh tw th : Nat) (fill_screen auto_rotate : Bool)
    (bg : Nat × Nat × Nat) (hsw : 1 ≤ sw) (hsh : 1 ≤ sh) (htw : 0 < tw) (hth : 0 < th) :
    (resize_with_aspect_ratio sw sh tw th fill_screen auto_rotate bg).width = tw ∧
    (resize_with_aspect_ratio sw sh tw th fill_screen auto_rotate bg).height = th := by
  cases fill_screen <;> cases auto_rotate <;> exact ⟨rfl, rfl⟩

/-- C3 witness: a 3x2 source, 800x480 target, FILL with auto-rotate. -/
theorem c3_output_has_target_dims_witness :
    (resize_with_aspect_ratio 3 2 800 480 true true (255, 255, 255)).width = 800 ∧
    (resize_with_aspect_ratio 3 2 800 480 true true (255, 255, 255)).height = 480 :=
  c3_output_has_target_dims 3 2 800 480 true true (255, 255, 255)
    (by decide) (by decide) (by decide) (by decide)

/-- C6: in FIT mode with a source strictly smaller than the target in
both dimensions, the scaled dimensions stay within the target, the
centering offsets are nonnegative, and every pixel of the scaled source
lands inside the output canvas bounds — no cropping. -/
theorem c6_fit_smaller_source_no_crop (sw sh tw th : Nat) (bg : Nat × Nat × Nat)
    (hsw : 0 < sw) (hsh : 0 < sh) (hw : sw < tw) (hh : sh < th) :
    (resize_to_fit_screen sw sh tw th bg).pastedW ≤ tw ∧
    (resize_to_fit_screen sw sh tw th bg).pastedH ≤ th ∧
    0 ≤ (resize_to_fit_screen sw sh tw th bg).pasteX ∧
    0 ≤ (resize_to_fit_screen sw sh tw th bg).pasteY ∧
    ∀ i j : Nat, i < (resize_to_fit_screen sw sh tw th bg).pastedW →
      j < (resize_to_fit_screen sw sh tw th bg).pastedH →
      0 ≤ (resize_to_fit_screen sw sh tw th bg).pasteX + i ∧
      (resize_to_fit_screen sw sh tw th bg).pasteX + i < tw ∧
      0 ≤ (resize_to_fit_screen sw sh tw th bg).pasteY + j ∧
      (resize_to_fit_screen sw sh tw th bg).pasteY + j < th := by
  have hscale0 : 0 ≤ min ((tw : ℚ) / sw) ((th : ℚ) / sh) :=
    le_min (by positivity) (by positivity)
  have h1 : (py_trunc ((sw : ℚ) * min ((tw : ℚ) / sw) ((th : ℚ) / sh))).toNat ≤ tw :=
    scaled_dim_le sw tw _ hsw hscale0 (min_le_left _ _)
  have h2 : (py_trunc ((sh : ℚ) * min ((tw : ℚ) / sw) ((th : ℚ) / sh))).toNat ≤ th :=
    scaled_dim_le sh th _ hsh hscale0 (min_le_right _ _)
  have hWeq : (resize_to_fit_screen sw sh tw th bg).pastedW =
      (py_trunc ((sw : ℚ) * min ((tw : ℚ) / sw) ((th : ℚ) / sh))).toNat := rfl
  have hHeq : (resize_to_fit_screen sw sh tw th bg).pastedH =
      (py_trunc ((sh : ℚ) * min ((tw : ℚ) / sw) ((th : ℚ) / sh))).toNat := rfl
  have hXeq : (resize_to_fit_screen sw sh tw th bg).pasteX =
      ((tw : ℤ) - (resize_to_fit_screen sw sh tw th bg).pastedW).fdiv 2 := rfl
  have hYeq : (resize_to_fit_screen sw sh tw th bg).pasteY =
      ((th : ℤ) - (resize_to_fit_screen sw sh tw th bg).pastedH).fdiv 2 := rfl
  rw [hWeq] at hXeq
  rw [hHeq] at hYeq
  have hW : (resize_to_fit_screen sw sh tw th bg).pastedW ≤ tw := hWeq ▸ h1
  have hH : (resize_to_fit_screen sw sh tw th bg).pastedH ≤ th := hHeq ▸ h2
  have hXnn : 0 ≤ (resize_to_fit_screen sw sh tw th bg).pasteX := by
    rw [hXeq]
    exact fdiv_two_nonneg (by omega)
  have hYnn : 0 ≤ (resize_to_fit_screen sw sh tw th bg).pasteY := by
    rw [hYeq]
    exact fdiv_two_nonneg (by omega)
  have hXle : (resize_to_fit_screen sw sh tw th bg).pasteX ≤
      (tw : ℤ) - (py_trunc ((sw : ℚ) * min ((tw : ℚ) / sw) ((th : ℚ) / sh))).toNat := by
    rw [hXeq]
    exact fdiv_two_le_self (by omega)
  have hYle : (resize_to_fit_screen sw sh tw th bg).pasteY ≤
      (th : ℤ) - (py_trunc ((sh : ℚ) * min ((tw : ℚ) / sw) ((th : ℚ) / sh))).toNat := by
    rw [hYeq]
    exact fdiv_two_le_self (by omega)
  refine ⟨hW, hH, hXnn, hYnn, fun i j hi hj => ?_⟩
  rw [hWeq] at hi
  rw [hHeq] at hj
  refine ⟨by omega, by omega, by omega, by omega⟩

/-- C6 witness: a 400x200 source into an 800x480 target in FIT mode;
pixel (0, 0) of the scaled source lies inside the canvas. -/
theorem c6_fit_smaller_source_no_crop_witness :
    (resize_to_fit_screen 400 200 800 480 (255, 255, 255)).pastedW ≤ 800 ∧
    (resize_to_fit_screen 400 200 800 480 (255, 255, 255)).pastedH ≤ 480 ∧
    0 ≤ (resize_to_fit_screen 400 200 800 480 (255, 255, 255)).pasteX ∧
    0 ≤ (resize_to_fit_screen 400 200 800 480 (255, 255, 255)).pasteY ∧
    ∀ i j : Nat, i < (resize_to_fit_screen 400 200 800 480 (255, 255, 255)).pastedW →
      j < (resize_to_fit_screen 400 200 800 480 (255, 255, 255)).pastedH →
      0 ≤ (resize_to_fit_screen 400 200 800 480 (255, 255, 255)).pasteX + i ∧
      (resize_to_fit_screen 400 200 800 480 (255, 255, 255)).pasteX + i < 800 ∧
      0 ≤ (resize_to_fit_screen 400 200 800 480 (255, 255, 255)).pasteY + j ∧
      (resize_to_fit_screen 400 200 800 480 (255, 255, 255)).pasteY + j < 480 :=
  c6_fit_smaller_source_no_crop 400 200 800 480 (255, 255, 255)
    (by decide) (by decide) (by decide) (by decide)

/-- C7: with auto-rotate enabled the source dimensions are swapped
(rotation by 90 degrees with an expanded bounding box) exactly when
`min(target_w/src_h, target_h/src_w)` strictly exceeds
`min(target_w/src_w, target_h/src_h)`; equal ratios keep the original
orientation. -/
theorem c7_auto_rotate_strict (sw sh tw th : Nat)
    (hsw : 0 < sw) (hsh : 0 < sh) (htw : 0 < tw) (hth : 0 < th) :
    (min ((tw : ℚ) / sh) ((th : ℚ) / sw) > min ((tw : ℚ) / sw) ((th : ℚ) / sh) →
      rotate_for_best_fit sw sh tw th = (sh, sw)) ∧
    (min ((tw : ℚ) / sh) ((th : ℚ) / sw) = min ((tw : ℚ) / sw) ((th : ℚ) / sh) →
      rotate_for_best_fit sw sh tw th = (sw, sh)) ∧
    (¬ min ((tw : ℚ) / sh) ((th : ℚ) / sw) > min ((tw : ℚ) / sw) ((th : ℚ) / sh) →
      rotate_for_best_fit sw sh tw th = (sw, sh)) := by
  refine ⟨fun hgt => ?_, fun heq => ?_, fun hng => ?_⟩
  · unfold rotate_for_best_fit
    dsimp only
    rw [if_pos hgt]
  · unfold rotate_for_best_fit
    dsimp only
    rw [if_neg (by rw [heq]; exact lt_irrefl _)]
  · unfold rotate_for_best_fit
    dsimp only
    rw [if_neg hng]

/-- C7 witness: a 300x100 landscape source and a 100x300 portrait
target; rotating fits strictly better, so the dimensions swap. -/
theorem c7_auto_rotate_strict_witness :
    rotate_for_best_fit 300 100 100 300 = (100, 300) :=
  (c7_auto_rotate_strict 300 100 100 300 (by decide) (by decide) (by decide)
    (by decide)).1 (by norm_num)

/-- C8: a 1200x1200 source into an 800x480 target in FILL mode: the
scale is max(800/1200, 480/1200) = 2/3, the scaled image is 800x800, the
paste offset is x = 0 and y = (480-800)//2 = -160 (the negative offset
clips rather than erroring), and the output is exactly 800x480 with no
background pixel visible. -/
theorem c8_fill_square_clips :
    max ((800 : ℚ) / 1200) ((480 : ℚ) / 1200) = 2/3 ∧
    (resize_to_fill_screen 1200 1200 800 480 (255, 255, 255)).pastedW = 800 ∧
    (resize_to_fill_screen 1200 1200 800 480 (255, 255, 255)).pastedH = 800 ∧
    (resize_to_fill_screen 1200 1200 800 480 (255, 255, 255)).pasteX = 0 ∧
    (resize_to_fill_screen 1200 1200 800 480 (255, 255, 255)).pasteY = -160 ∧
    (resize_to_fill_screen 1200 1200 800 480 (255, 255, 255)).width = 800 ∧
    (resize_to_fill_screen 1200 1200 800 480 (255, 255, 255)).height = 480 ∧
    ∀ px py : Nat, px < 800 → py < 480 →
      covers (resize_to_fill_screen 1200 1200 800 480 (255, 255, 255)) px py := by
  have hmax : max ((800 : ℚ) / 1200) ((480 : ℚ) / 1200) = 2/3 := by norm_num
  have hW : (resize_to_fill_screen 1200 1200 800 480 (255, 255, 255)).pastedW = 800 := by
    show (py_trunc ((1200 : ℚ) * max ((800 : ℚ) / 1200) ((480 : ℚ) / 1200))).toNat = 800
    rw [hmax]
    norm_num [py_trunc]
    decide
  have hH : (resize_to_fill_screen 1200 1200 800 480 (255, 255, 255)).pastedH = 800 := by
    show (py_trunc ((1200 : ℚ) * max ((800 : ℚ) / 1200) ((480 : ℚ) / 1200))).toNat = 800
    rw [hmax]
    norm_num [py_trunc]
    decide
  have hX : (resize_to_fill_screen 1200 1200 800 480 (255, 255, 255)).pasteX = 0 := by
    show ((800 : ℤ) -
      (py_trunc ((1200 : ℚ) * max ((800 : ℚ) / 1200) ((480 : ℚ) / 1200))).toNat).fdiv 2 = 0
    rw [show (py_trunc ((1200 : ℚ) * max ((800 : ℚ) / 1200) ((480 : ℚ) / 1200))).toNat = 800
      from hW]
    decide
  have hY : (resize_to_fill_screen 1200 1200 800 480 (255, 255, 255)).pasteY = -160 := by
    show ((480 : ℤ) -
      (py_trunc ((1200 : ℚ) * max ((800 : ℚ) / 1200) ((480 : ℚ) / 1200))).toNat).fdiv 2 = -160
    rw [show (py_trunc ((1200 : ℚ) * max ((800 : ℚ) / 1200) ((480 : ℚ) / 1200))).toNat = 800
      from hH]
    decide
  refine ⟨hmax, hW, hH, hX, hY, rfl, rfl, fun px py hpx hpy => ?_⟩
  unfold covers
  rw [hX, hY, hW, hH]
  refine ⟨by omega, by omega, by omega, by omega⟩

/-- C8 witness: the top-left canvas pixel is covered by the pasted
image. -/
theorem c8_fill_square_clips_witness :
    covers (resize_to_fill_screen 1200 1200 800 480 (255, 255, 255)) 0 0 :=
  c8_fill_square_clips.2.2.2.2.2.2.2 0 0 (by decide) (by decide)
